import Mathlib

/-!
Shallow embedding of `src/spotify_to_tidal/main.py` (a Spotify-to-TIDAL
playlist migrator) and proofs about its track-resolution and batch-write
logic.  Remote HTTP endpoints are modelled as oracles: a `SearchEnv` maps
each search query to the candidate list the destination catalog would
return, and a `WriterEnv` gives, per request index, the ETag header of the
k-th playlist-items GET and the HTTP status of the k-th POST.  Real-time
sleeps (`time.sleep`) have no observable effect in the model and are
dropped.
-/

/-- Characters removed by Python `str.strip()` from both ends. -/
def stripChars (l : List Char) : List Char :=
  ((l.dropWhile Char.isWhitespace).reverse.dropWhile Char.isWhitespace).reverse

/-- Python `str.strip()`: drop leading and trailing whitespace. -/
def pyStrip (s : String) : String := ⟨stripChars s.data⟩

/-- A TIDAL search-result track as the code reads it from a response dict:
`t.get("id")` may be absent, and `int(t.get("duration", 0))` defaults to 0
(TIDAL reports the duration in seconds). -/
structure TTrack where
  id : Option Nat
  duration : Nat
deriving DecidableEq

/-- A normalized Spotify track record as built by `sp_playlist_tracks`
(main.py lines 109-127): name, album, comma-joined artist string,
duration in milliseconds (defaulted to 0), and optional ISRC. -/
structure SourceTrack where
  name : String
  album : String
  artists : String
  duration_ms : Nat
  isrc : Option String
deriving DecidableEq

/-- One row of the `not_found.csv` report (main.py lines 291-298). -/
structure UnresolvedRecord where
  playlist : String
  title : String
  artists : String
  album : String
  isrc : String
  duration_ms : Nat
deriving DecidableEq

/-- A search request issued against the destination catalog: either an
ISRC-exact query or a free-text fuzzy query. -/
inductive Query where
  | isrcQ (isrc : String)
  | fuzzyQ (q : String)
deriving DecidableEq

/-- Oracle for the destination catalog's search endpoint: the track list
the remote would return for each ISRC query and for each fuzzy query. -/
structure SearchEnv where
  isrcResults : String → List TTrack
  fuzzyResults : String → List TTrack

/-- Python truthiness of the optional ISRC string (None and the empty
string are falsy): `if t['isrc']:` and `if not isrc:`. -/
def truthyStr : Option String → Bool
  | none => false
  | some s => decide (s ≠ "")

/-- Python truthiness of the optional track id (None and 0 are falsy):
`if not tid:` and `if tid:`. -/
def truthyId : Option Nat → Bool
  | none => false
  | some n => decide (n ≠ 0)

/-- Embedding of `tidal_search_track_by_isrc` (main.py lines 170-184):
return None for a falsy ISRC without any request; otherwise issue one
search and return the first result if any (`tracks[0] if tracks else
None`).  The first component records the requests issued. -/
def tidal_search_track_by_isrc (env : SearchEnv) (isrc : Option String) :
    List Query × Option TTrack :=
  if truthyStr isrc then
    match isrc with
    | some s => ([Query.isrcQ s], (env.isrcResults s).head?)
    | none => ([], none)
  else ([], none)

/-- The duration filter of the fuzzy search (main.py lines 206-208):
`abs(int(t.get("duration", 0)) * 1000 - target) <= 2000`. -/
def tolOk (duration_ms : Nat) (t : TTrack) : Bool :=
  decide (((t.duration : Int) * 1000 - (duration_ms : Int)).natAbs ≤ 2000)

/-- Embedding of `tidal_search_track_fuzzy` (main.py lines 187-210):
build the query `f"{title} {artists}".strip()`; an empty query returns
None without a request; otherwise issue the search, return None on an
empty result list, else the first result within the 2000 ms duration
tolerance, else the first result overall (`tracks[0]`). -/
def tidal_search_track_fuzzy (env : SearchEnv) (title artists : String)
    (duration_ms : Nat) : List Query × Option TTrack :=
  let q := pyStrip (title ++ " " ++ artists)
  if q = "" then ([], none)
  else
    let tracks := env.fuzzyResults q
    if tracks = [] then ([Query.fuzzyQ q], none)
    else
      match tracks.find? (tolOk duration_ms) with
      | some t => ([Query.fuzzyQ q], some t)
      | none => ([Query.fuzzyQ q], tracks.head?)

/-- One iteration of the resolution loop in `migrate_all_playlists`
(main.py lines 275-286): try ISRC search when the ISRC is truthy and take
the hit's id; when the id is still falsy, fall back to the fuzzy search.
Returns the requests issued and the final `tid` exactly as the Python
code leaves it (possibly None, possibly 0). -/
def resolve_track (env : SearchEnv) (t : SourceTrack) : List Query × Option Nat :=
  let step1 : List Query × Option Nat :=
    if truthyStr t.isrc then
      match tidal_search_track_by_isrc env t.isrc with
      | (qs, some hit) => (qs, hit.id)
      | (qs, none) => (qs, none)
    else ([], none)
  if truthyId step1.2 then step1
  else
    match tidal_search_track_fuzzy env t.name t.artists t.duration_ms with
    | (qs, some hit) => (step1.1 ++ qs, hit.id)
    | (qs, none) => (step1.1 ++ qs, step1.2)

/-- The id appended to `tidal_ids` for a source track, when its resolved
`tid` is truthy (main.py line 288). -/
def resolvedId (env : SearchEnv) (t : SourceTrack) : Option Nat :=
  match (resolve_track env t).2 with
  | some n => if n = 0 then none else some n
  | none => none

/-- The report row appended for an unresolved track (main.py lines
291-298); `t['isrc'] or ""` maps a falsy ISRC to the empty string. -/
def notFoundRow (playlistName : String) (t : SourceTrack) : UnresolvedRecord :=
  { playlist := playlistName, title := t.name, artists := t.artists,
    album := t.album, isrc := t.isrc.getD "", duration_ms := t.duration_ms }

/-- The resolution loop of `migrate_all_playlists` (main.py lines
274-298): accumulate resolved ids and not-found rows in source order. -/
def resolve_all (env : SearchEnv) (playlistName : String) :
    List SourceTrack → List Nat × List UnresolvedRecord
  | [] => ([], [])
  | t :: ts =>
    let rest := resolve_all env playlistName ts
    match (resolve_track env t).2 with
    | some n =>
      if n = 0 then (rest.1, notFoundRow playlistName t :: rest.2)
      else (n :: rest.1, rest.2)
    | none => (rest.1, notFoundRow playlistName t :: rest.2)

/-- Oracle for the writer's HTTP traffic against one playlist: the ETag
header carried by the k-th playlist-items GET (`none` when that request
fails with a status of 400 or more, or the header is missing, in which
case `tidal_get_playlist_etag` raises), and the status of the k-th POST. -/
structure WriterEnv where
  etagResp : Nat → Option String
  postStatus : Nat → Nat

/-- Embedding of `tidal_get_playlist_etag` (main.py lines 50-65) for the
k-th fetch: the ETag, or `none` when the code would raise. -/
def tidal_get_playlist_etag (env : WriterEnv) (k : Nat) : Option String :=
  env.etagResp k

/-- Observable HTTP events of the batch writer: an ETag fetch (with the
token obtained), a failed ETag fetch (the code raises), and a POST of a
batch of track ids carrying an `If-None-Match` token, with the status the
remote returned. -/
inductive Event where
  | fetchEtag (etag : String)
  | fetchEtagFailed
  | post (trackIds : List Nat) (etag : String) (status : Nat)
deriving DecidableEq

/-- One iteration of the batch loop of `tidal_add_tracks_in_batches`
(main.py lines 218-242): fetch the current ETag, POST the chunk with it;
on status 412 wait, re-fetch the ETag once and retry the same chunk; then
any status of 400 or more raises.  Arguments `e` and `p` count the ETag
fetches and POSTs already issued; the result is the events of this
iteration, the updated counters, and whether the iteration succeeded. -/
def writeOneBatch (env : WriterEnv) (e p : Nat) (chunk : List Nat) :
    List Event × Nat × Nat × Bool :=
  match tidal_get_playlist_etag env e with
  | none => ([Event.fetchEtagFailed], (e + 1, p, false))
  | some etag =>
    let s := env.postStatus p
    if s = 412 then
      match tidal_get_playlist_etag env (e + 1) with
      | none =>
        ([Event.fetchEtag etag, Event.post chunk etag s, Event.fetchEtagFailed],
         (e + 2, p + 1, false))
      | some etag2 =>
        let s2 := env.postStatus (p + 1)
        ([Event.fetchEtag etag, Event.post chunk etag s,
          Event.fetchEtag etag2, Event.post chunk etag2 s2],
         (e + 2, p + 2, decide (s2 < 400)))
    else
      ([Event.fetchEtag etag, Event.post chunk etag s],
       (e + 1, p + 1, decide (s < 400)))

/-- The slicing loop `for i in range(0, len(track_ids), batch)` with
`chunk = track_ids[i:i+batch]`, as fuel-bounded structural recursion; a
fuel equal to the list length suffices whenever `batch ≥ 1`. -/
def chunksAux (batch : Nat) : Nat → List Nat → List (List Nat)
  | 0, _ => []
  | _ + 1, [] => []
  | fuel + 1, x :: xs => (x :: xs).take batch :: chunksAux batch fuel ((x :: xs).drop batch)

/-- The successive chunks `track_ids[i:i+batch]` of the batch loop. -/
def chunks (batch : Nat) (l : List Nat) : List (List Nat) :=
  chunksAux batch l.length l

/-- The batch loop from a given chunk onward: run `writeOneBatch` on each
chunk in order, stopping at the first failed chunk (the Python exception
propagates out of the loop). -/
def addBatchesFrom (env : WriterEnv) : Nat → Nat → List (List Nat) → List Event × Bool
  | _, _, [] => ([], true)
  | e, p, c :: cs =>
    match writeOneBatch env e p c with
    | (evs, _, _, false) => (evs, false)
    | (evs, e2, p2, _) =>
      let rest := addBatchesFrom env e2 p2 cs
      (evs ++ rest.1, rest.2)

/-- Embedding of `tidal_add_tracks_in_batches` (main.py lines 213-242):
the HTTP events issued against the playlist, and whether the whole write
completed without raising. -/
def tidal_add_tracks_in_batches (env : WriterEnv) (track_ids : List Nat)
    (batch : Nat) : List Event × Bool :=
  addBatchesFrom env 0 0 (chunks batch track_ids)

/-- The id batches carried by the POST events of a trace, in order. -/
def postedBatches : List Event → List (List Nat)
  | [] => []
  | Event.post ids _ _ :: rest => ids :: postedBatches rest
  | _ :: rest => postedBatches rest

/-- Well-formed writer traces: a possibly empty sequence of blocks, each
an ETag fetch immediately followed by a POST carrying exactly the token
just fetched, optionally ending in a failed ETag fetch. -/
inductive FreshTrace : List Event → Prop
  | nil : FreshTrace []
  | failed : FreshTrace [Event.fetchEtagFailed]
  | block (etag : String) (ids : List Nat) (s : Nat) (rest : List Event) :
      FreshTrace rest →
      FreshTrace (Event.fetchEtag etag :: Event.post ids etag s :: rest)

/-- Every POST of the trace is immediately preceded by the fetch of the
very token it carries: the token was fetched after every earlier event of
the trace (in particular after all previous writes) and before the write
that uses it. -/
def postUsesFreshEtag (tr : List Event) : Prop :=
  ∀ j ids etag s, tr.get? j = some (Event.post ids etag s) →
    ∃ i, j = i + 1 ∧ tr.get? i = some (Event.fetchEtag etag)

/-- A Spotify playlist as the orchestrator reads it: its name and its
normalized tracks. -/
structure SpotifyPlaylist where
  name : String
  tracks : List SourceTrack
deriving DecidableEq

/-- What one iteration of the playlist loop of `migrate_all_playlists`
leaves behind: whether the destination playlist was created, the writer
events issued against it, and whether the iteration finished without
raising. -/
structure PlaylistOutcome where
  name : String
  created : Bool
  events : List Event
  ok : Bool
deriving DecidableEq

/-- The observable state of a whole run: the per-playlist outcomes of the
iterations that were entered, the accumulated `not_found_rows`, and
whether the run was terminated by an uncaught exception. -/
structure RunResult where
  outcomes : List PlaylistOutcome
  notFound : List UnresolvedRecord
  failed : Bool
deriving DecidableEq

/-- One iteration of the playlist loop (main.py lines 260-303): create
the destination playlist (aborting the iteration on failure, before any
resolution), resolve all tracks, and write the resolved ids in batches
when there are any (`if tidal_ids:`). -/
def migrate_one (search : SearchEnv) (wenv : WriterEnv) (batch : Nat)
    (createOk : Bool) (pl : SpotifyPlaylist) : PlaylistOutcome × List UnresolvedRecord :=
  if createOk then
    let rs := resolve_all search pl.name pl.tracks
    if rs.1 = [] then
      ({ name := pl.name, created := true, events := [], ok := true }, rs.2)
    else
      let w := tidal_add_tracks_in_batches wenv rs.1 batch
      ({ name := pl.name, created := true, events := w.1, ok := w.2 }, rs.2)
  else
    ({ name := pl.name, created := false, events := [], ok := false }, [])

/-- The playlist loop from playlist index k onward.  There is no
try/except around the loop body: a failing iteration makes the whole
function raise, so the recursion stops at the first failed outcome. -/
def migrate_from (search : SearchEnv) (wenv : Nat → WriterEnv)
    (createOk : Nat → Bool) (batch : Nat) : Nat → List SpotifyPlaylist → RunResult
  | _, [] => { outcomes := [], notFound := [], failed := false }
  | k, pl :: pls =>
    let step := migrate_one search (wenv k) batch (createOk k) pl
    if step.1.ok then
      let r := migrate_from search wenv createOk batch (k + 1) pls
      { outcomes := step.1 :: r.outcomes, notFound := step.2 ++ r.notFound,
        failed := r.failed }
    else
      { outcomes := [step.1], notFound := step.2, failed := true }

/-- Embedding of `migrate_all_playlists` (main.py lines 249-311): iterate
the source playlists in order; the `not_found.csv` report is written at
the very end, only when the loop finished without raising. -/
def migrate_all_playlists (search : SearchEnv) (wenv : Nat → WriterEnv)
    (createOk : Nat → Bool) (batch : Nat) (pls : List SpotifyPlaylist) : RunResult :=
  migrate_from search wenv createOk batch 0 pls

/-- The optional report row a source track contributes: none when its
resolved id is truthy, the not-found row otherwise. -/
def unresolvedRowOf (env : SearchEnv) (playlistName : String) (t : SourceTrack) :
    Option UnresolvedRecord :=
  if truthyId (resolve_track env t).2 then none else some (notFoundRow playlistName t)

/-- A run over n playlists that processes them in order and stops at the
first failure: a clean run enters every iteration and each succeeds; a
failed run stops at its first failed iteration, every earlier outcome
being a success, and no later playlist is entered. -/
def stopsAtFirstFailure (r : RunResult) (n : Nat) : Prop :=
  (r.failed = false → r.outcomes.length = n ∧ ∀ o ∈ r.outcomes, o.ok = true) ∧
  (r.failed = true → r.outcomes ≠ [] ∧ r.outcomes.length ≤ n ∧
    (∀ o ∈ r.outcomes.dropLast, o.ok = true) ∧
    ∀ o, r.outcomes.getLast? = some o → o.ok = false)

/-! Concrete oracles and inputs used to instantiate the theorems below. -/

/-- Destination-catalog oracle for concrete instantiations: ISRC "IA"
has one hit (id 101); fuzzy query "B b" has one hit within the duration
tolerance; fuzzy query "E e" has two hits, both outside the tolerance;
every other query returns nothing. -/
def cSearch : SearchEnv :=
  { isrcResults := fun s => if s = "IA" then [⟨some 101, 7⟩] else [],
    fuzzyResults := fun q =>
      if q = "B b" then [⟨some 202, 200⟩]
      else if q = "E e" then [⟨some 501, 10⟩, ⟨some 502, 20⟩]
      else [] }

/-- A track that resolves by ISRC exact match. -/
def trackA : SourceTrack := ⟨"A", "alA", "a", 5000, some "IA"⟩

/-- A track that resolves by fuzzy search within the duration tolerance. -/
def trackB : SourceTrack := ⟨"B", "alB", "b", 200000, none⟩

/-- A track with no candidates from either search. -/
def trackC : SourceTrack := ⟨"C", "alC", "c", 100000, none⟩

/-- A track without ISRC whose title and artists strip to an empty query. -/
def trackBlank : SourceTrack := ⟨"", "alBlank", " ", 0, none⟩

/-- A writer oracle where every request succeeds with status 200. -/
def okWriter : WriterEnv :=
  { etagResp := fun _ => some "T0", postStatus := fun _ => 200 }

/-- A writer oracle whose first POST returns 412 and whose retry returns
500. -/
def conflictWriter : WriterEnv :=
  { etagResp := fun _ => some "T1", postStatus := fun p => if p = 0 then 412 else 500 }

/-- Playlist-creation oracle where only the first creation fails. -/
def createFailsFirst : Nat → Bool := fun k => decide (k ≠ 0)

/-- The three-track playlist of the end-to-end scenario. -/
def scenarioPlaylist : SpotifyPlaylist := ⟨"PL", [trackA, trackB, trackC]⟩

/-! Helper lemmas about the chunking of the batch loop. -/

theorem chunksAux_mem_length (batch fuel : Nat) :
    ∀ (l : List Nat), ∀ c ∈ chunksAux batch fuel l, c.length ≤ batch := by
  induction fuel with
  | zero => intro l c hc; simp [chunksAux] at hc
  | succ n ih =>
    intro l c hc
    cases l with
    | nil => simp [chunksAux] at hc
    | cons x xs =>
      rw [chunksAux] at hc
      rcases List.mem_cons.mp hc with h | h
      · subst h
        simp
      · exact ih _ c h

theorem chunksAux_flatten (batch : Nat) (hb : 0 < batch) :
    ∀ (fuel : Nat) (l : List Nat), l.length ≤ fuel → (chunksAux batch fuel l).flatten = l := by
  intro fuel
  induction fuel with
  | zero =>
    intro l hl
    have h0 : l = [] := List.eq_nil_of_length_eq_zero (Nat.le_zero.mp hl)
    subst h0
    simp [chunksAux]
  | succ n ih =>
    intro l hl
    cases l with
    | nil => simp [chunksAux]
    | cons x xs =>
      have hdrop : ((x :: xs).drop batch).length ≤ n := by
        simp only [List.length_drop, List.length_cons]
        simp only [List.length_cons] at hl
        omega
      rw [chunksAux, List.flatten_cons, ih _ hdrop, List.take_append_drop]

theorem chunksAux_count (batch : Nat) (hb : 0 < batch) :
    ∀ (fuel : Nat) (l : List Nat), l.length ≤ fuel →
      (chunksAux batch fuel l).length = (l.length + batch - 1) / batch := by
  intro fuel
  induction fuel with
  | zero =>
    intro l hl
    have h0 : l = [] := List.eq_nil_of_length_eq_zero (Nat.le_zero.mp hl)
    subst h0
    simp [chunksAux, Nat.div_eq_of_lt (by omega : batch - 1 < batch)]
  | succ n ih =>
    intro l hl
    cases l with
    | nil => simp [chunksAux, Nat.div_eq_of_lt (by omega : batch - 1 < batch)]
    | cons x xs =>
      have hdrop : ((x :: xs).drop batch).length ≤ n := by
        simp only [List.length_drop, List.length_cons]
        simp only [List.length_cons] at hl
        omega
      rw [chunksAux, List.length_cons, ih _ hdrop]
      simp only [List.length_drop, List.length_cons]
      have hx : xs.length + 1 + batch - 1 = (xs.length + 1 - 1) + batch := by omega
      rw [hx, Nat.add_div_right _ hb]
      by_cases hcase : xs.length + 1 ≤ batch
      · have h1 : xs.length + 1 - batch = 0 := by omega
        rw [h1]
        rw [Nat.div_eq_of_lt (by omega : 0 + batch - 1 < batch)]
        rw [Nat.div_eq_of_lt (by omega : xs.length + 1 - 1 < batch)]
      · have h1 : xs.length + 1 - batch + batch - 1 = xs.length + 1 - 1 := by omega
        rw [h1]

/-! Helper lemmas about the batch writer's traces. -/

theorem addBatchesFrom_success (env : WriterEnv)
    (hok : ∀ k, env.postStatus k < 400) (hetag : ∀ k, (env.etagResp k).isSome) :
    ∀ (cs : List (List Nat)) (e p : Nat),
      postedBatches (addBatchesFrom env e p cs).1 = cs ∧
      (addBatchesFrom env e p cs).2 = true := by
  intro cs
  induction cs with
  | nil => intro e p; simp [addBatchesFrom, postedBatches]
  | cons c cs ih =>
    intro e p
    obtain ⟨etag, hsome⟩ := Option.isSome_iff_exists.mp (hetag e)
    have h412 : ¬ env.postStatus p = 412 := by have := hok p; omega
    have hw : writeOneBatch env e p c =
        ([Event.fetchEtag etag, Event.post c etag (env.postStatus p)],
         (e + 1, p + 1, true)) := by
      simp [writeOneBatch, tidal_get_playlist_etag, hsome, h412, hok p]
    rw [addBatchesFrom, hw]
    simp only [postedBatches]
    have hrest := ih (e + 1) (p + 1)
    constructor
    · simpa using hrest.1
    · exact hrest.2

theorem writeOneBatch_freshTrace (env : WriterEnv) (e p : Nat) (c : List Nat) :
    FreshTrace (writeOneBatch env e p c).1 := by
  rcases h1 : env.etagResp e with _ | etag
  · simp [writeOneBatch, tidal_get_playlist_etag, h1]
    exact FreshTrace.failed
  · by_cases h412 : env.postStatus p = 412
    · rcases h2 : env.etagResp (e + 1) with _ | etag2
      · simp [writeOneBatch, tidal_get_playlist_etag, h1, h2, h412]
        exact FreshTrace.block _ _ _ _ FreshTrace.failed
      · simp [writeOneBatch, tidal_get_playlist_etag, h1, h2, h412]
        exact FreshTrace.block _ _ _ _ (FreshTrace.block _ _ _ _ FreshTrace.nil)
    · simp [writeOneBatch, tidal_get_playlist_etag, h1, h412]
      exact FreshTrace.block _ _ _ _ FreshTrace.nil

theorem writeOneBatch_freshTrace_append (env : WriterEnv) (e p : Nat) (c : List Nat)
    (rest : List Event) (hok : (writeOneBatch env e p c).2.2.2 = true)
    (hr : FreshTrace rest) : FreshTrace ((writeOneBatch env e p c).1 ++ rest) := by
  rcases h1 : env.etagResp e with _ | etag
  · rw [writeOneBatch] at hok
    simp [tidal_get_playlist_etag, h1] at hok
  · by_cases h412 : env.postStatus p = 412
    · rcases h2 : env.etagResp (e + 1) with _ | etag2
      · rw [writeOneBatch] at hok
        simp [tidal_get_playlist_etag, h1, h2, h412] at hok
      · simp [writeOneBatch, tidal_get_playlist_etag, h1, h2, h412]
        exact FreshTrace.block _ _ _ _ (FreshTrace.block _ _ _ _ hr)
    · simp [writeOneBatch, tidal_get_playlist_etag, h1, h412]
      exact FreshTrace.block _ _ _ _ hr

theorem addBatchesFrom_freshTrace (env : WriterEnv) :
    ∀ (cs : List (List Nat)) (e p : Nat), FreshTrace (addBatchesFrom env e p cs).1 := by
  intro cs
  induction cs with
  | nil =>
    intro e p
    simpa [addBatchesFrom] using FreshTrace.nil
  | cons c cs ih =>
    intro e p
    rcases hw : writeOneBatch env e p c with ⟨evs, e2, p2, ok⟩
    cases ok with
    | false =>
      rw [addBatchesFrom, hw]
      have h := writeOneBatch_freshTrace env e p c
      rw [hw] at h
      exact h
    | true =>
      rw [addBatchesFrom, hw]
      have h := writeOneBatch_freshTrace_append env e p c
        (addBatchesFrom env e2 p2 cs).1 (by rw [hw]) (ih e2 p2)
      rw [hw] at h
      exact h

theorem freshTrace_postUses {tr : List Event} (h : FreshTrace tr) :
    postUsesFreshEtag tr := by
  induction h with
  | nil =>
    intro j ids etag s hj
    simp at hj
  | failed =>
    intro j ids etag s hj
    cases j with
    | zero => simp at hj
    | succ n => simp [List.get?] at hj
  | block etag0 ids0 s0 rest hrest ih =>
    intro j ids etag s hj
    match j with
    | 0 => simp at hj
    | 1 =>
      refine ⟨0, rfl, ?_⟩
      simp at hj ⊢
      exact hj.2.1
    | n + 2 =>
      obtain ⟨i, hi, hget⟩ := ih n ids etag s (by simpa using hj)
      exact ⟨i + 2, by omega, by simpa using hget⟩

/-! Helper lemma about the resolution loop. -/

theorem resolve_all_eq (env : SearchEnv) (playlistName : String) :
    ∀ ts : List SourceTrack,
      resolve_all env playlistName ts =
        (ts.filterMap (resolvedId env), ts.filterMap (unresolvedRowOf env playlistName)) := by
  intro ts
  induction ts with
  | nil => simp [resolve_all]
  | cons t ts ih =>
    rcases h : (resolve_track env t).2 with _ | n
    · simp [resolve_all, h, ih, resolvedId, unresolvedRowOf, truthyId]
    · by_cases hn : n = 0
      · subst hn
        simp [resolve_all, h, ih, resolvedId, unresolvedRowOf, truthyId]
      · simp [resolve_all, h, ih, resolvedId, unresolvedRowOf, truthyId, hn]

/-! The claims. -/

/-- C1: for every batch write issued by the batch writer, a first-attempt
staleness conflict (HTTP 412) leads to one fresh ETag fetch and exactly
one retry of the same batch, whose failure (any status of 400 or more,
412 included) is fatal for that batch; a first-attempt non-conflict error
status is fatal without any retry.  The brief wait before the retry is
real time and has no observable effect in the model. -/
theorem C1_conflict_retried_once (env : WriterEnv) (e p : Nat) (chunk : List Nat)
    (etag1 : String) (h1 : tidal_get_playlist_etag env e = some etag1) :
    (env.postStatus p = 412 →
      ∀ etag2, tidal_get_playlist_etag env (e + 1) = some etag2 →
        (writeOneBatch env e p chunk).1 =
          [Event.fetchEtag etag1, Event.post chunk etag1 412,
           Event.fetchEtag etag2, Event.post chunk etag2 (env.postStatus (p + 1))] ∧
        ((writeOneBatch env e p chunk).2.2.2 = true ↔ env.postStatus (p + 1) < 400)) ∧
    (env.postStatus p ≠ 412 → 400 ≤ env.postStatus p →
      (writeOneBatch env e p chunk).1 =
        [Event.fetchEtag etag1, Event.post chunk etag1 (env.postStatus p)] ∧
      (writeOneBatch env e p chunk).2.2.2 = false) := by
  rw [tidal_get_playlist_etag] at h1
  constructor
  · intro h412 etag2 h2
    rw [tidal_get_playlist_etag] at h2
    constructor
    · simp [writeOneBatch, tidal_get_playlist_etag, h1, h2, h412]
    · simp [writeOneBatch, tidal_get_playlist_etag, h1, h2, h412]
  · intro hne hge
    constructor
    · simp [writeOneBatch, tidal_get_playlist_etag, h1, hne]
    · simp [writeOneBatch, tidal_get_playlist_etag, h1, hne]
      omega

/-- Witness for C1 at a concrete input: the first POST returns 412, the
retry returns 500, so the trace holds exactly two POSTs of the same chunk,
the second with a freshly fetched token, and the batch is fatal. -/
theorem C1_conflict_retried_once_witness :
    (writeOneBatch conflictWriter 0 0 [7]).1 =
      [Event.fetchEtag "T1", Event.post [7] "T1" 412,
       Event.fetchEtag "T1", Event.post [7] "T1" (conflictWriter.postStatus 1)] ∧
    ((writeOneBatch conflictWriter 0 0 [7]).2.2.2 = true ↔
      conflictWriter.postStatus 1 < 400) :=
  (C1_conflict_retried_once conflictWriter 0 0 [7] "T1" rfl).1 rfl "T1" rfl

/-- C2: every POST the batch writer issues carries the token of the ETag
fetch immediately preceding it in the trace, so the token was fetched
after all previous writes to the playlist completed and before the write
that uses it; the conflict retry re-fetches its own fresh token. -/
theorem C2_write_uses_fresh_token (env : WriterEnv) (track_ids : List Nat)
    (batch : Nat) :
    postUsesFreshEtag (tidal_add_tracks_in_batches env track_ids batch).1 :=
  freshTrace_postUses
    (addBatchesFrom_freshTrace env (chunks batch track_ids) 0 0)

/-- Witness for C2 at a concrete input. -/
theorem C2_write_uses_fresh_token_witness :
    postUsesFreshEtag (tidal_add_tracks_in_batches okWriter [1, 2, 3] 2).1 :=
  C2_write_uses_fresh_token okWriter [1, 2, 3] 2

/-- C3: for every id list and positive batch size, in a run where every
request succeeds (no conflict retries, no errors) the batch writer POSTs
at most `batch` ids per write call, issues exactly ceil(N / batch) write
calls, and the concatenation of the posted batches is exactly the input
list, so every id appears in exactly one batch, at exactly one position. -/
theorem C3_batch_partition (env : WriterEnv) (track_ids : List Nat) (batch : Nat)
    (hb : 0 < batch) (hok : ∀ k, env.postStatus k < 400)
    (hetag : ∀ k, (env.etagResp k).isSome) :
    (∀ c ∈ postedBatches (tidal_add_tracks_in_batches env track_ids batch).1,
      c.length ≤ batch) ∧
    (postedBatches (tidal_add_tracks_in_batches env track_ids batch).1).length
      = (track_ids.length + batch - 1) / batch ∧
    (postedBatches (tidal_add_tracks_in_batches env track_ids batch).1).flatten
      = track_ids := by
  have hposted :
      postedBatches (tidal_add_tracks_in_batches env track_ids batch).1
        = chunks batch track_ids :=
    (addBatchesFrom_success env hok hetag (chunks batch track_ids) 0 0).1
  rw [hposted]
  refine ⟨chunksAux_mem_length batch track_ids.length track_ids, ?_, ?_⟩
  · exact chunksAux_count batch hb track_ids.length track_ids (Nat.le_refl _)
  · exact chunksAux_flatten batch hb track_ids.length track_ids (Nat.le_refl _)

/-- Witness for C3 at a concrete input: five ids with batch size 2 give
ceil(5/2) = 3 POSTs whose batches flatten back to the input. -/
theorem C3_batch_partition_witness :
    (postedBatches (tidal_add_tracks_in_batches okWriter [1, 2, 3, 4, 5] 2).1).length
      = ([1, 2, 3, 4, 5].length + 2 - 1) / 2 ∧
    (postedBatches (tidal_add_tracks_in_batches okWriter [1, 2, 3, 4, 5] 2).1).flatten
      = [1, 2, 3, 4, 5] := by
  have h := C3_batch_partition okWriter [1, 2, 3, 4, 5] 2 (by decide)
    (fun k => show (200 : Nat) < 400 by decide) (fun _ => rfl)
  exact ⟨h.2.1, h.2.2⟩

/-- C9: for every source playlist, resolved ids are collected in source
iteration order and written in increasing batch order: in an all-success
run the flattened sequence of posted ids equals the in-order selection of
the truthy resolved ids of the source tracks, so an earlier resolved
source track has its id written no later than a later one. -/
theorem C9_source_order_preserved (search : SearchEnv) (env : WriterEnv)
    (playlistName : String) (ts : List SourceTrack) (batch : Nat)
    (hb : 0 < batch) (hok : ∀ k, env.postStatus k < 400)
    (hetag : ∀ k, (env.etagResp k).isSome) :
    (postedBatches
      (tidal_add_tracks_in_batches env (resolve_all search playlistName ts).1 batch).1).flatten
      = ts.filterMap (resolvedId search) := by
  have hposted :
      postedBatches
        (tidal_add_tracks_in_batches env (resolve_all search playlistName ts).1 batch).1
        = chunks batch (resolve_all search playlistName ts).1 :=
    (addBatchesFrom_success env hok hetag _ 0 0).1
  rw [hposted, chunks, chunksAux_flatten batch hb _ _ (Nat.le_refl _), resolve_all_eq]

/-- Witness for C9 at a concrete input: with batch size 1 the three-track
scenario writes [101, 202], the in-order truthy resolutions. -/
theorem C9_source_order_preserved_witness :
    (postedBatches
      (tidal_add_tracks_in_batches okWriter
        (resolve_all cSearch "PL" [trackA, trackB, trackC]).1 1).1).flatten
      = [trackA, trackB, trackC].filterMap (resolvedId cSearch) :=
  C9_source_order_preserved cSearch okWriter "PL" [trackA, trackB, trackC] 1
    (by decide) (fun k => show (200 : Nat) < 400 by decide) (fun _ => rfl)

/-- C4: for every source track with a truthy ISRC whose ISRC search
returns at least one result, resolution returns the id of the first
result (provided, as the claim presupposes, that the result carries a
truthy id) and the fuzzy search is never invoked: the only request issued
is the one ISRC query. -/
theorem C4_isrc_short_circuits (env : SearchEnv) (t : SourceTrack) (s : String)
    (hit : TTrack) (rest : List TTrack) (n : Nat)
    (hisrc : t.isrc = some s) (hs : s ≠ "")
    (hres : env.isrcResults s = hit :: rest)
    (hid : hit.id = some n) (hn : n ≠ 0) :
    (resolve_track env t).2 = some n ∧
    (resolve_track env t).1 = [Query.isrcQ s] := by
  have hstep : tidal_search_track_by_isrc env (some s) = ([Query.isrcQ s], some hit) := by
    simp [tidal_search_track_by_isrc, truthyStr, hs, hres]
  constructor
  · simp [resolve_track, truthyStr, hisrc, hs, hstep, hid, truthyId, hn]
  · simp [resolve_track, truthyStr, hisrc, hs, hstep, hid, truthyId, hn]

/-- Witness for C4 at a concrete input: trackA's ISRC "IA" hits id 101
and only the ISRC query is issued. -/
theorem C4_isrc_short_circuits_witness :
    (resolve_track cSearch trackA).2 = some 101 ∧
    (resolve_track cSearch trackA).1 = [Query.isrcQ "IA"] :=
  C4_isrc_short_circuits cSearch trackA "IA" ⟨some 101, 7⟩ [] 101
    rfl (by decide) rfl rfl (by decide)

/-- C5: for every source track without an ISRC, or whose ISRC search
yields no match, with a non-empty stripped title-plus-artists query,
resolution issues the fuzzy search on that query, and whenever at least
one returned candidate is within the 2000 ms duration tolerance it
returns the first such candidate in the returned order. -/
theorem C5_fuzzy_duration_match (env : SearchEnv) (t : SourceTrack)
    (hisrc : t.isrc = none ∨ ∃ s, t.isrc = some s ∧ env.isrcResults s = [])
    (hq : pyStrip (t.name ++ " " ++ t.artists) ≠ "")
    (hc : ∃ c ∈ env.fuzzyResults (pyStrip (t.name ++ " " ++ t.artists)),
      tolOk t.duration_ms c = true) :
    Query.fuzzyQ (pyStrip (t.name ++ " " ++ t.artists)) ∈ (resolve_track env t).1 ∧
    ∃ c, (env.fuzzyResults (pyStrip (t.name ++ " " ++ t.artists))).find?
        (tolOk t.duration_ms) = some c ∧
      (resolve_track env t).2 = c.id := by
  obtain ⟨c0, hc0mem, hc0tol⟩ := hc
  obtain ⟨c, hfind⟩ := Option.isSome_iff_exists.mp
    (List.find?_isSome.mpr ⟨c0, hc0mem, hc0tol⟩)
  have hne : env.fuzzyResults (pyStrip (t.name ++ " " ++ t.artists)) ≠ [] :=
    List.ne_nil_of_mem hc0mem
  have hfuzzy : tidal_search_track_fuzzy env t.name t.artists t.duration_ms =
      ([Query.fuzzyQ (pyStrip (t.name ++ " " ++ t.artists))], some c) := by
    simp [tidal_search_track_fuzzy, hq, hne, hfind]
  have hstep : (if truthyStr t.isrc then
      match tidal_search_track_by_isrc env t.isrc with
      | (qs, some hit) => ((qs, hit.id) : List Query × Option Nat)
      | (qs, none) => (qs, none)
    else ([], none)).2 = none := by
    rcases hisrc with h | ⟨s, hsome, hempty⟩
    · simp [h, truthyStr]
    · by_cases hs : s = ""
      · subst hs
        simp [hsome, truthyStr]
      · simp [tidal_search_track_by_isrc, truthyStr, hsome, hs, hempty]
  constructor
  · rw [resolve_track]
    simp only [hstep, truthyId, Bool.false_eq_true, if_false, hfuzzy]
    simp
  · refine ⟨c, hfind, ?_⟩
    rw [resolve_track]
    simp only [hstep, truthyId, Bool.false_eq_true, if_false, hfuzzy]

/-- Witness for C5 at a concrete input: trackB has no ISRC and its fuzzy
candidate of 200 seconds is within 2000 ms of its 200000 ms duration. -/
theorem C5_fuzzy_duration_match_witness :
    Query.fuzzyQ (pyStrip (trackB.name ++ " " ++ trackB.artists)) ∈
      (resolve_track cSearch trackB).1 ∧
    ∃ c, (cSearch.fuzzyResults (pyStrip (trackB.name ++ " " ++ trackB.artists))).find?
        (tolOk trackB.duration_ms) = some c ∧
      (resolve_track cSearch trackB).2 = c.id :=
  C5_fuzzy_duration_match cSearch trackB (Or.inl rfl) (by decide)
    ⟨⟨some 202, 200⟩, by decide, by decide⟩

/-- C6: whenever the fuzzy search is issued (non-empty stripped query)
and returns a non-empty candidate list none of whose candidates is within
the 2000 ms duration tolerance, it returns the first candidate of the
list; in particular the fuzzy search never returns None when the
candidate list is non-empty. -/
theorem C6_fuzzy_fallback_first (env : SearchEnv) (title artists : String)
    (duration_ms : Nat) (c : TTrack) (cs : List TTrack)
    (hq : pyStrip (title ++ " " ++ artists) ≠ "")
    (hres : env.fuzzyResults (pyStrip (title ++ " " ++ artists)) = c :: cs)
    (hnone : ∀ x ∈ c :: cs, ¬ tolOk duration_ms x = true) :
    (tidal_search_track_fuzzy env title artists duration_ms).2 = some c := by
  have hfind : (c :: cs).find? (tolOk duration_ms) = none :=
    List.find?_eq_none.mpr hnone
  simp [tidal_search_track_fuzzy, hq, hres, hfind]

/-- Witness for C6 at a concrete input: the query "E e" returns two
candidates of 10 s and 20 s against a source duration of 100000 ms, both
out of tolerance, and the first candidate is returned. -/
theorem C6_fuzzy_fallback_first_witness :
    (tidal_search_track_fuzzy cSearch "E" "e" 100000).2 = some ⟨some 501, 10⟩ :=
  C6_fuzzy_fallback_first cSearch "E" "e" 100000 ⟨some 501, 10⟩ [⟨some 502, 20⟩]
    (by decide) rfl (by decide)

/-- C10: a source track without ISRC whose title and artists strip to an
empty query resolves to None with no search request issued at all (the
embedded function is total: the code path returns rather than raising),
and the track contributes its not-found row to the report rows of any
resolution run that contains it. -/
theorem C10_blank_query_unresolved (env : SearchEnv) (playlistName : String)
    (t : SourceTrack) (ts : List SourceTrack)
    (hisrc : t.isrc = none)
    (hq : pyStrip (t.name ++ " " ++ t.artists) = "")
    (hmem : t ∈ ts) :
    resolve_track env t = ([], none) ∧
    notFoundRow playlistName t ∈ (resolve_all env playlistName ts).2 := by
  have h1 : resolve_track env t = ([], none) := by
    simp [resolve_track, truthyStr, truthyId, hisrc, tidal_search_track_fuzzy, hq]
  refine ⟨h1, ?_⟩
  rw [resolve_all_eq]
  exact List.mem_filterMap.mpr ⟨t, hmem, by simp [unresolvedRowOf, h1, truthyId]⟩

/-- Witness for C10 at a concrete input: trackBlank has no ISRC, its
name is empty and its artists string is one blank, so the query strips to
empty; it resolves to None with no request and lands in the report. -/
theorem C10_blank_query_unresolved_witness :
    resolve_track cSearch trackBlank = ([], none) ∧
    notFoundRow "PL" trackBlank ∈ (resolve_all cSearch "PL" [trackBlank]).2 :=
  C10_blank_query_unresolved cSearch "PL" trackBlank [trackBlank]
    rfl (by decide) (by decide)

/-- The playlist loop processes playlists in order and stops at its first
failed iteration, from any starting index. -/
theorem migrate_from_stops (search : SearchEnv) (wenv : Nat → WriterEnv)
    (createOk : Nat → Bool) (batch : Nat) :
    ∀ (pls : List SpotifyPlaylist) (k : Nat),
      stopsAtFirstFailure (migrate_from search wenv createOk batch k pls) pls.length := by
  intro pls
  induction pls with
  | nil =>
    intro k
    constructor
    · intro _
      simp [migrate_from]
    · intro h
      simp [migrate_from] at h
  | cons pl pls ih =>
    intro k
    rcases hR : migrate_from search wenv createOk batch (k + 1) pls with ⟨ro, rn, rf⟩
    have hr := ih (k + 1)
    rw [hR] at hr
    simp only [migrate_from, hR]
    by_cases hok : (migrate_one search (wenv k) batch (createOk k) pl).1.ok = true
    · rw [if_pos hok]
      constructor
      · intro hfail
        simp only at hfail
        obtain ⟨hlen, hall⟩ := hr.1 hfail
        simp only at hlen ⊢
        refine ⟨by simp [hlen], ?_⟩
        intro o ho
        rcases List.mem_cons.mp ho with h | h
        · subst h
          exact hok
        · exact hall o h
      · intro hfail
        simp only at hfail
        obtain ⟨hne, hlen, hdrop, hlast⟩ := hr.2 hfail
        simp only at hlen hdrop hlast ⊢
        cases ro with
        | nil => exact absurd rfl hne
        | cons o2 ro2 =>
          refine ⟨by simp, by simp at hlen ⊢; omega, ?_, ?_⟩
          · intro o ho
            rw [List.dropLast_cons₂] at ho
            rcases List.mem_cons.mp ho with h | h
            · subst h
              exact hok
            · exact hdrop o h
          · intro o ho
            rw [List.getLast?_cons_cons] at ho
            exact hlast o ho
    · rw [if_neg hok]
      rw [Bool.not_eq_true] at hok
      constructor
      · intro hfail
        exact Bool.noConfusion hfail
      · intro _
        refine ⟨by simp, by simp, ?_, ?_⟩
        · intro o ho
          simp at ho
        · intro o ho
          simp only [List.getLast?_singleton, Option.some.injEq] at ho
          rw [ho] at hok
          exact hok

/-- C7 counterexample: with two playlists where creating the first one
fails, the run ends after the first iteration with an uncaught error; the
second playlist is never processed, contradicting the claim that the run
continues with the next source playlist. -/
theorem C7_counterexample_run_terminates :
    (migrate_all_playlists cSearch (fun _ => okWriter) createFailsFirst 100
      [⟨"P1", []⟩, ⟨"P2", []⟩]).outcomes.length = 1 ∧
    (migrate_all_playlists cSearch (fun _ => okWriter) createFailsFirst 100
      [⟨"P1", []⟩, ⟨"P2", []⟩]).failed = true := by
  constructor
  · rfl
  · rfl

/-- C7 (amended): when the migration of one playlist fails mid-way, the
failing playlist's migration is aborted with its destination left as the
already-issued writes made it, playlists already migrated remain as-is,
and the run terminates: playlists after the failing one are never
processed (the loop has no per-playlist exception handling). -/
theorem C7_run_stops_at_first_failure (search : SearchEnv) (wenv : Nat → WriterEnv)
    (createOk : Nat → Bool) (batch : Nat) (pls : List SpotifyPlaylist) :
    stopsAtFirstFailure (migrate_all_playlists search wenv createOk batch pls)
      pls.length :=
  migrate_from_stops search wenv createOk batch pls 0

/-- C8: in the three-track scenario (trackA resolves by ISRC to id 101,
trackB by fuzzy search within tolerance to id 202, trackC gets no
candidates from either search) the run issues exactly one POST appending
exactly the two ids 101 and 202 to the destination playlist, and the
unresolved report holds exactly one record, for trackC, with fields
playlist, title, artists, album, empty-string isrc and duration_ms. -/
theorem C8_end_to_end_three_tracks :
    migrate_all_playlists cSearch (fun _ => okWriter) (fun _ => true) 100
      [scenarioPlaylist] =
      { outcomes := [{ name := "PL", created := true, events := [Event.fetchEtag "T0", Event.post [101, 202] "T0" 200], ok := true }],
        notFound := [{ playlist := "PL", title := "C", artists := "c", album := "alC", isrc := "", duration_ms := 100000 }],
        failed := false } := by
  rfl
